import Mathlib

/-!
Shallow embedding of the x402 micropayment query client
(`mcp-server/src/x402-client.ts`) and the MCP execute-query tool handler.

Modelling conventions:
* Machine numbers (HTTP status, timestamps, timeout seconds) are `Nat`;
  monetary amounts stay decimal strings, as in the source.
* The network is an adversarial environment `Env` supplying the outcome of
  the first and (if reached) second `fetch`, the current Unix time, the
  random bytes drawn for the nonce, and an abstract EIP-712 signing
  function standing for ethers `Wallet.signTypedData`.
* `fetch` rejections and `.json()` parse failures are modelled with
  `Except`; a parsed JSON body is modelled by the typed shape the code
  reads for the given status, with every field the code accesses
  optionally absent exactly where the TypeScript type allows it
  (`QueryResult` in the source declares every payload field optional).
* `executeQuery` additionally returns a `Trace` recording every HTTP
  request issued (with the attached payment header, if any) and every
  authorization signed, so that claims about "zero transport calls" and
  "no signing" are statable.
-/

/-- JS regex word character class `\w` = `[A-Za-z0-9_]`. -/
def isWordChar (c : Char) : Bool :=
  ('A' ≤ c && c ≤ 'Z') || ('a' ≤ c && c ≤ 'z') || ('0' ≤ c && c ≤ '9') || c = '_'

/-- A `\b` boundary holds at a string edge or next to a non-word char
(the keywords matched are all word characters). -/
def boundaryOk : Option Char → Bool
  | none => true
  | some c => !isWordChar c

/-- The word `w` matches at the current position of `s`, with `prev` the
character just before that position (`none` at the string start). -/
def matchHere (w : List Char) (prev : Option Char) (s : List Char) : Bool :=
  boundaryOk prev && w.isPrefixOf s && boundaryOk (s.drop w.length).head?

/-- Scan of the JS regex `\bw\b` over the remaining characters. -/
def matchesWholeWordAux (w : List Char) (prev : Option Char) : List Char → Bool
  | [] => matchHere w prev []
  | c :: rest => matchHere w prev (c :: rest) || matchesWholeWordAux w (some c) rest

/-- `new RegExp("\\b" + w + "\\b").test s` for a word `w` made of word
characters. -/
def containsWholeWord (w s : String) : Bool :=
  matchesWholeWordAux w.data none s.data

/-- Plain substring occurrence (no boundary conditions). -/
def containsSubstringAux (w : List Char) : List Char → Bool
  | [] => w.isPrefixOf ([] : List Char)
  | c :: rest => w.isPrefixOf (c :: rest) || containsSubstringAux w rest

/-- `s` contains `w` as a contiguous substring. -/
def containsSubstring (w s : String) : Bool :=
  containsSubstringAux w.data s.data

/-- JS `trim` whitespace (ASCII fragment): HT, LF, VT, FF, CR, space. -/
def isJsWhitespace (c : Char) : Bool :=
  (9 ≤ c.toNat && c.toNat ≤ 13) || c = ' '

/-- `s.trim()` on the character list. -/
def trimChars (s : List Char) : List Char :=
  ((s.dropWhile isJsWhitespace).reverse.dropWhile isJsWhitespace).reverse

/-- `toUpperCase` per character (ASCII). -/
def toUpperChar (c : Char) : Char :=
  if 'a' ≤ c && c ≤ 'z' then Char.ofNat (c.toNat - 32) else c

/-- `query.trim().toUpperCase()` from `validateQuery`. -/
def normalizeQuery (query : String) : String :=
  String.mk ((trimChars query.data).map toUpperChar)

/-- The denylist `FORBIDDEN_OPERATIONS` from the source. -/
def FORBIDDEN_OPERATIONS : List String :=
  ["DROP", "DELETE", "UPDATE", "INSERT", "ALTER", "CREATE", "TRUNCATE", "GRANT", "REVOKE"]

/-- `X402Client.validateQuery`: returns the first forbidden operation
matching as a whole word in the uppercased, trimmed query (the source
throws on it), or `none` when the query passes. -/
def validateQuery (query : String) : Option String :=
  FORBIDDEN_OPERATIONS.find? (fun operation => containsWholeWord operation (normalizeQuery query))

/-- EIP-712 domain, as in ethers `TypedDataDomain`. -/
structure TypedDataDomain where
  name : String
  version : String
  chainId : Nat
  verifyingContract : String
  deriving DecidableEq

/-- One field description of an EIP-712 type, as in ethers `TypedDataField`. -/
structure TypedDataField where
  name : String
  type : String
  deriving DecidableEq

/-- `Record<string, TypedDataField[]>` as passed to `signTypedData`. -/
abbrev TypedDataTypes := List (String × List TypedDataField)

/-- `EIP3009_DOMAIN`: USDC on Base mainnet, constants in the source. -/
def EIP3009_DOMAIN : TypedDataDomain :=
  { name := "USD Coin"
    version := "2"
    chainId := 8453
    verifyingContract := "0x833589fCD6eDb6E08f4c7C32D4f71b54bdA02913" }

/-- `EIP3009_TYPES` from the source. -/
def EIP3009_TYPES : TypedDataTypes :=
  [("TransferWithAuthorization",
    [{ name := "from", type := "address" },
     { name := "to", type := "address" },
     { name := "value", type := "uint256" },
     { name := "validAfter", type := "uint256" },
     { name := "validBefore", type := "uint256" },
     { name := "nonce", type := "bytes32" }])]

/-- `EIP3009Authorization` interface. -/
structure EIP3009Authorization where
  «from» : String
  «to» : String
  value : String
  validAfter : String
  validBefore : String
  nonce : String
  deriving DecidableEq

/-- `PaymentPayload` interface. -/
structure PaymentPayload where
  authorization : EIP3009Authorization
  signature : String
  deriving DecidableEq

/-- `XPaymentHeader` interface. -/
structure XPaymentHeader where
  x402Version : Nat
  scheme : String
  network : String
  payload : PaymentPayload
  deriving DecidableEq

/-- `PaymentRequirement.extra` optional block. -/
structure PaymentRequirementExtra where
  paymentRequestId : Option String
  estimatedCost : Option String
  availableCredit : Option String
  amountDue : Option String
  deriving DecidableEq

/-- `PaymentRequirement` interface. -/
structure PaymentRequirement where
  scheme : String
  network : String
  maxAmountRequired : String
  asset : String
  payTo : String
  resource : String
  description : String
  mimeType : String
  maxTimeoutSeconds : Nat
  extra : Option PaymentRequirementExtra
  deriving DecidableEq

/-- `PaymentRequirementsResponse` interface (the parsed 402 body). -/
structure PaymentRequirementsResponse where
  x402Version : Nat
  error : String
  accepts : List PaymentRequirement
  deriving DecidableEq

/-- `SettlementResponse` interface. -/
structure SettlementResponse where
  success : Bool
  payer : String
  transaction : String
  network : String
  timestamp : Nat
  deriving DecidableEq

/-- `paymentSource` values. -/
inductive PaymentSource where
  | payment
  | credit
  deriving DecidableEq

/-- A result row: an ordered string-keyed record of loosely typed values
(values modelled as strings). -/
abbrev Row := List (String × String)

/-- The fields the code reads from a 2xx response body (`data.rows`,
`data.rowCount`, ...): plain JSON, so each may be absent. -/
structure SuccessBody where
  rows : Option (List Row)
  rowCount : Option Nat
  estimatedCost : Option String
  actualCost : Option String
  executionTime : Option Nat
  paymentSource : Option PaymentSource
  deriving DecidableEq

/-- `QueryResult` interface: every payload field is optional in the source. -/
structure QueryResult where
  success : Bool
  rows : Option (List Row)
  rowCount : Option Nat
  estimatedCost : Option String
  actualCost : Option String
  executionTime : Option Nat
  settlement : Option SettlementResponse
  paymentSource : Option PaymentSource
  paymentRequired : Option Bool
  paymentRequirements : Option PaymentRequirementsResponse
  message : Option String
  error : Option String
  deriving DecidableEq

/-- A `QueryResult` with no field populated and `success := false`. -/
def emptyResult : QueryResult :=
  { success := false, rows := none, rowCount := none, estimatedCost := none,
    actualCost := none, executionTime := none, settlement := none,
    paymentSource := none, paymentRequired := none, paymentRequirements := none,
    message := none, error := none }

/-- The failure results the client builds: `success: false` plus an error
message. -/
def errorResult (message : String) : QueryResult :=
  { emptyResult with error := some message }

/-- One HTTP response as the code observes it.  The body fields model what
`.json()` yields under the interpretation the code applies for the
corresponding status (`Except.error` = the body is not valid JSON, so
`.json()` rejects); the settlement header models the raw
`X-PAYMENT-RESPONSE` header after base64+JSON decoding, `Except.error`
when that decoding throws. -/
structure HttpResponse where
  status : Nat
  statusText : String
  challengeBody : Except String PaymentRequirementsResponse
  successBody : Except String SuccessBody
  errorBody : Except String (Option String)
  xPaymentResponse : Option (Except String SettlementResponse)

/-- `Response.ok`: status in the range 200-299. -/
def HttpResponse.isOk (r : HttpResponse) : Bool :=
  decide (200 ≤ r.status ∧ r.status ≤ 299)

/-- `errorData = await response.json().catch(() => ({ error: statusText }))`
followed by `errorData.error || response.statusText`. -/
def HttpResponse.fallbackError (r : HttpResponse) : String :=
  match r.errorBody with
  | .error _ => r.statusText
  | .ok none => r.statusText
  | .ok (some e) => if e = "" then r.statusText else e

/-- Outcome of one `fetch`: rejection (network failure) or a response. -/
inductive FetchOutcome where
  | netError (message : String)
  | response (resp : HttpResponse)

/-- The environment one `executeQuery` call runs in: the two possible
fetch outcomes, `Date.now()` in seconds, the 32 random bytes drawn by
`crypto.getRandomValues`, and ethers `signTypedData` abstracted as a
function of the private key, domain, types and message. -/
structure Env where
  first : FetchOutcome
  second : FetchOutcome
  now : Nat
  nonceBytes : List Nat
  sign : String → TypedDataDomain → TypedDataTypes → EIP3009Authorization → String

/-- Lowercase hex digit for `n < 16` (as produced by JS `toString(16)`). -/
def hexDigit (n : Nat) : Char :=
  if n < 10 then Char.ofNat (48 + n) else Char.ofNat (87 + n)

/-- `b.toString(16).padStart(2, "0")` for a byte. -/
def byteToHex (b : Nat) : String :=
  String.mk [hexDigit (b / 16 % 16), hexDigit (b % 16)]

/-- `.map(hex).join("")` over the random bytes. -/
def bytesToHex : List Nat → String
  | [] => ""
  | b :: rest => byteToHex b ++ bytesToHex rest

/-- `generateNonce`: `0x` plus the 32 random bytes in lowercase hex. -/
def generateNonce (bytes : List Nat) : String :=
  "0x" ++ bytesToHex bytes

/-- ethers `Wallet`, reduced to the key it signs with. -/
structure Wallet where
  privateKey : String
  deriving DecidableEq

/-- `X402Config` interface. -/
structure X402Config where
  gatewayUrl : String
  providerId : String
  apiKey : String
  agentPrivateKey : Option String
  deriving DecidableEq

/-- `X402Client` fields. -/
structure X402Client where
  gatewayUrl : String
  providerId : String
  apiKey : String
  wallet : Option Wallet
  deriving DecidableEq

/-- The `X402Client` constructor: throws (here `Except.error`) when a
required config field is missing or empty (JS falsiness of strings), and
initializes the wallet only when a non-empty private key is provided.
`makeWallet` stands for the ethers `new Wallet(key)` call, which is
fallible: the library throws on a key it does not accept (for example a
string that is not a 32-byte hex quantity), and that throw propagates out
of the constructor uncaught, so no client instance is produced. -/
def X402Client.make (makeWallet : String → Except String Wallet)
    (config : X402Config) : Except String X402Client :=
  if config.gatewayUrl = "" then .error "gatewayUrl is required"
  else if config.providerId = "" then .error "providerId is required"
  else if config.apiKey = "" then .error "apiKey is required"
  else
    match config.agentPrivateKey with
    | none => .ok
        { gatewayUrl := config.gatewayUrl
          providerId := config.providerId
          apiKey := config.apiKey
          wallet := none }
    | some key =>
      if key = "" then .ok
        { gatewayUrl := config.gatewayUrl
          providerId := config.providerId
          apiKey := config.apiKey
          wallet := none }
      else
        match makeWallet key with
        | .error e => .error e
        | .ok w => .ok
            { gatewayUrl := config.gatewayUrl
              providerId := config.providerId
              apiKey := config.apiKey
              wallet := some w }

/-- `X402Client.signAuthorization`.  The source method checks
`this.wallet` and throws when it is unset; `executeQuery` only reaches it
with a configured wallet, which is the case this definition embeds (the
wallet is passed explicitly). -/
def signAuthorization (wallet : Wallet) (env : Env) (requirement : PaymentRequirement)
    (agentWallet : String) : XPaymentHeader :=
  let now := env.now
  let authorization : EIP3009Authorization :=
    { «from» := agentWallet
      «to» := requirement.payTo
      value := requirement.maxAmountRequired
      validAfter := "0"
      validBefore := Nat.repr (now + requirement.maxTimeoutSeconds)
      nonce := generateNonce env.nonceBytes }
  let signature := env.sign wallet.privateKey EIP3009_DOMAIN EIP3009_TYPES authorization
  { x402Version := 1
    scheme := requirement.scheme
    network := requirement.network
    payload := { authorization := authorization, signature := signature } }

/-- One POST to `gatewayUrl + "/api/query"`: the request body fields and
the payment header attached on the retry (`none` on the first attempt). -/
structure RequestRecord where
  sql : String
  agentWallet : String
  providerId : String
  payment : Option XPaymentHeader
  deriving DecidableEq

/-- Instrumentation of one `executeQuery` call: the requests issued, in
order, and the authorizations signed. -/
structure Trace where
  requests : List RequestRecord
  signed : List XPaymentHeader
  deriving DecidableEq

/-- `X402Client.executeQuery`, with the trace of transport calls and
signatures made alongside the returned `QueryResult`. -/
def X402Client.executeQuery (c : X402Client) (env : Env) (query : String)
    (agentWallet : String) : QueryResult × Trace :=
  match validateQuery query with
  | some operation =>
      (errorResult ("Forbidden SQL operation: " ++ operation),
       { requests := [], signed := [] })
  | none =>
    let req1 : RequestRecord :=
      { sql := query, agentWallet := agentWallet, providerId := c.providerId, payment := none }
    match env.first with
    | .netError message =>
        (errorResult message, { requests := [req1], signed := [] })
    | .response initialResponse =>
      if initialResponse.status = 402 then
        match initialResponse.challengeBody with
        | .error message =>
            (errorResult message, { requests := [req1], signed := [] })
        | .ok paymentReq =>
          match c.wallet with
          | none =>
              ({ emptyResult with
                  paymentRequired := some true
                  paymentRequirements := some paymentReq
                  message := some "Payment required. Configure AGENT_PRIVATE_KEY to enable automatic payments, or sign manually." },
               { requests := [req1], signed := [] })
          | some wallet =>
            match paymentReq.accepts with
            | [] =>
                (errorResult "No payment requirement returned from gateway",
                 { requests := [req1], signed := [] })
            | requirement :: _ =>
              let xPayment := signAuthorization wallet env requirement agentWallet
              let req2 : RequestRecord :=
                { sql := query, agentWallet := agentWallet, providerId := c.providerId,
                  payment := some xPayment }
              match env.second with
              | .netError message =>
                  (errorResult message, { requests := [req1, req2], signed := [xPayment] })
              | .response paymentResponse =>
                if paymentResponse.isOk then
                  match paymentResponse.successBody with
                  | .error message =>
                      (errorResult message,
                       { requests := [req1, req2], signed := [xPayment] })
                  | .ok data =>
                    let settlement : Option SettlementResponse :=
                      match paymentResponse.xPaymentResponse with
                      | some (.ok s) => some s
                      | _ => none
                    ({ emptyResult with
                        success := true
                        rows := data.rows
                        rowCount := data.rowCount
                        estimatedCost := data.estimatedCost
                        actualCost := data.actualCost
                        executionTime := data.executionTime
                        paymentSource := data.paymentSource
                        settlement := settlement },
                     { requests := [req1, req2], signed := [xPayment] })
                else
                  (errorResult ("Payment failed (" ++ Nat.repr paymentResponse.status ++ "): "
                      ++ paymentResponse.fallbackError),
                   { requests := [req1, req2], signed := [xPayment] })
      else if initialResponse.isOk then
        match initialResponse.successBody with
        | .error message =>
            (errorResult message, { requests := [req1], signed := [] })
        | .ok data =>
            ({ emptyResult with
                success := true
                rows := data.rows
                rowCount := data.rowCount
                estimatedCost := data.estimatedCost
                actualCost := data.actualCost
                executionTime := data.executionTime
                paymentSource := data.paymentSource },
             { requests := [req1], signed := [] })
      else
        (errorResult ("Gateway error (" ++ Nat.repr initialResponse.status ++ "): "
            ++ initialResponse.fallbackError),
         { requests := [req1], signed := [] })

/-!
Embedding of the MCP execute-query tool handler (the unnamed source file
importing `../x402-client`, `createExecuteQueryHandler`).  Floating-point
display formatting (`parseFloat` composed with `toFixed(6)`) and the
`parseFloat(s) > 0` test are abstracted as `FloatOps`; all monetary
values themselves are carried as the decimal strings of the source.
-/

/-- `input` of the `execute_query` tool. -/
structure ExecuteQueryInput where
  query : String
  walletAddress : String
  deriving DecidableEq

/-- `ExecuteQueryResult.data` block.  `cost` is a number in the source
(`parseFloat` of the cost string); it is carried here as that string. -/
structure ExecuteQueryData where
  rows : List Row
  rowCount : Nat
  cost : String
  summary : String
  settlement : Option SettlementResponse
  paymentSource : Option PaymentSource
  deriving DecidableEq

/-- `ExecuteQueryResult` interface.  `estimatedCost` is a number in the
source; carried here as the decimal string fed to `parseFloat`. -/
structure ExecuteQueryResult where
  success : Bool
  data : Option ExecuteQueryData
  paymentRequired : Option Bool
  paymentRequirements : Option PaymentRequirementsResponse
  estimatedCost : Option String
  message : Option String
  error : Option String
  deriving DecidableEq

/-- An `ExecuteQueryResult` with nothing populated. -/
def emptyExecuteResult : ExecuteQueryResult :=
  { success := false, data := none, paymentRequired := none,
    paymentRequirements := none, estimatedCost := none, message := none, error := none }

/-- Abstraction of the floating-point helpers the formatter uses:
`fmtMoney s` stands for `parseFloat(s).toFixed(6)` and `isPositive s`
for `parseFloat(s) > 0`. -/
structure FloatOps where
  fmtMoney : String → String
  isPositive : String → Bool

/-- JS `a || b` on a possibly-absent string (empty string is falsy). -/
def strOr (o : Option String) (d : String) : String :=
  match o with
  | none => d
  | some s => if s = "" then d else s

/-- Template interpolation of a possibly-undefined JS number. -/
def optNatText : Option Nat → String
  | some n => Nat.repr n
  | none => "undefined"

/-- `c` is one of `[a-fA-F0-9]`. -/
def isHexDigitChar (c : Char) : Bool :=
  ('0' ≤ c && c ≤ '9') || ('a' ≤ c && c ≤ 'f') || ('A' ≤ c && c ≤ 'F')

/-- `validateWalletAddress`: the regex `^0x[a-fA-F0-9]{40}$`. -/
def validateWalletAddress (address : String) : Bool :=
  match address.data with
  | c1 :: c2 :: rest => c1 = '0' && c2 = 'x' && (rest.length = 40 && rest.all isHexDigitChar)
  | _ => false

/-- The mapping the handler applies to the client result (the body of the
handler after `client.executeQuery` returns). -/
def mapQueryResult (ops : FloatOps) (result : QueryResult) : ExecuteQueryResult :=
  if result.success then
    let actualCost := strOr result.actualCost "0"
    let baseSummary :=
      "Query returned " ++ optNatText result.rowCount ++ " rows. Cost: $"
        ++ ops.fmtMoney actualCost
    let summary :=
      match result.paymentSource with
      | some PaymentSource.credit =>
          baseSummary ++ " (paid with credit from previous failed query)"
      | _ =>
        match result.settlement with
        | some settlement => baseSummary ++ " (settlement: " ++ settlement.transaction ++ ")"
        | none => baseSummary
    { emptyExecuteResult with
        success := true
        data := some
          { rows := result.rows.getD []
            rowCount := result.rowCount.getD 0
            cost := actualCost
            summary := summary
            settlement := result.settlement
            paymentSource := result.paymentSource } }
  else
    match result.paymentRequired, result.paymentRequirements with
    | some true, some paymentRequirements =>
      let requirement := paymentRequirements.accepts.head?
      let estimatedCost := strOr ((requirement.bind (·.extra)).bind (·.estimatedCost)) "0"
      let availableCredit := strOr ((requirement.bind (·.extra)).bind (·.availableCredit)) "0"
      let amountDue := strOr ((requirement.bind (·.extra)).bind (·.amountDue)) "0"
      let message0 := strOr result.message
        ("Payment required to execute this query. Estimated cost: $"
          ++ ops.fmtMoney estimatedCost)
      let message :=
        if ops.isPositive availableCredit then
          message0 ++ "\nAvailable credit: $" ++ ops.fmtMoney availableCredit
            ++ "\nAmount due: $" ++ ops.fmtMoney amountDue
        else message0
      { emptyExecuteResult with
          success := false
          paymentRequired := some true
          paymentRequirements := some paymentRequirements
          estimatedCost := some estimatedCost
          message := some message }
    | _, _ =>
      { emptyExecuteResult with
          success := false
          error := some (strOr result.error "Unknown error occurred") }

/-- `createExecuteQueryHandler client` applied to an input, with the trace
of the underlying client call (empty when validation fails before the
client is invoked). -/
def createExecuteQueryHandler (client : X402Client) (env : Env) (ops : FloatOps)
    (input : ExecuteQueryInput) : ExecuteQueryResult × Trace :=
  if trimChars input.query.data = [] then
    ({ emptyExecuteResult with error := some "query is required" },
     { requests := [], signed := [] })
  else if trimChars input.walletAddress.data = [] then
    ({ emptyExecuteResult with error := some "wallet address is required" },
     { requests := [], signed := [] })
  else if !validateWalletAddress input.walletAddress then
    ({ emptyExecuteResult with
        error := some "Invalid wallet address format. Must be a valid Ethereum address (0x + 40 hex characters)" },
     { requests := [], signed := [] })
  else
    let out := client.executeQuery env input.query input.walletAddress
    (mapQueryResult ops out.1, out.2)

set_option maxRecDepth 8000

/-!  Concrete fixtures used by the witnesses. -/

/-- An abstract signing function for concrete runs. -/
def sampleSign : String → TypedDataDomain → TypedDataTypes → EIP3009Authorization → String :=
  fun _ _ _ _ => "0xsignature"

/-- A concrete agent wallet. -/
def sampleWallet : Wallet := { privateKey := "0xagentkey" }

/-- A concrete payment requirement as the gateway would return it. -/
def sampleRequirement : PaymentRequirement :=
  { scheme := "exact"
    network := "base"
    maxAmountRequired := "50"
    asset := "0x833589fCD6eDb6E08f4c7C32D4f71b54bdA02913"
    payTo := "0x83334ef0C6f6396413C508A7762741e9FD8B20E9"
    resource := "/api/query"
    description := "paid SQL query"
    mimeType := "application/json"
    maxTimeoutSeconds := 300
    extra := none }

/-- A concrete 402 challenge body with one accepted requirement. -/
def sampleChallenge : PaymentRequirementsResponse :=
  { x402Version := 1, error := "Payment required", accepts := [sampleRequirement] }

/-- A concrete environment (both fetches unreachable unless overridden). -/
def sampleEnv : Env :=
  { first := .netError "unused"
    second := .netError "unused"
    now := 1700000000
    nonceBytes := List.range 32
    sign := sampleSign }

/-- A well-formed caller address. -/
def sampleAddress : String := "0x1111111111111111111111111111111111111111"

/-- A client configured without a signing key. -/
def clientNoWallet : X402Client :=
  { gatewayUrl := "https://gw.example", providerId := "prov-1", apiKey := "key-1", wallet := none }

/-- A client configured with a signing key. -/
def clientWithWallet : X402Client :=
  { clientNoWallet with wallet := some sampleWallet }

/-- C2: a query containing a denylisted keyword as a whole word
(case-insensitively) makes `executeQuery` return `success = false` with an
error naming an offending keyword, and no transport call or signature is
made. -/
theorem claim_C2 (client : X402Client) (env : Env) (query agentWallet op : String)
    (hmem : op ∈ FORBIDDEN_OPERATIONS)
    (hop : containsWholeWord op (normalizeQuery query) = true) :
    (client.executeQuery env query agentWallet).1.success = false ∧
    (∃ op2 ∈ FORBIDDEN_OPERATIONS,
      containsWholeWord op2 (normalizeQuery query) = true ∧
      (client.executeQuery env query agentWallet).1.error =
        some ("Forbidden SQL operation: " ++ op2)) ∧
    (client.executeQuery env query agentWallet).2.requests = [] ∧
    (client.executeQuery env query agentWallet).2.signed = [] := by
  have hsome : (validateQuery query).isSome := by
    rw [validateQuery]
    exact List.find?_isSome.mpr ⟨op, hmem, hop⟩
  obtain ⟨op2, hfind⟩ := Option.isSome_iff_exists.mp hsome
  have hfind2 : FORBIDDEN_OPERATIONS.find?
      (fun operation => containsWholeWord operation (normalizeQuery query)) = some op2 := hfind
  have hp := List.find?_some hfind2
  have hm := List.mem_of_find?_eq_some hfind2
  refine ⟨?_, ⟨op2, hm, hp, ?_⟩, ?_, ?_⟩ <;>
    simp [X402Client.executeQuery, hfind, errorResult, emptyResult]

/-- C2 witness: `DROP TABLE documents` is rejected with no transport call. -/
theorem claim_C2_witness :
    ("DROP" ∈ FORBIDDEN_OPERATIONS ∧
      containsWholeWord "DROP" (normalizeQuery "DROP TABLE documents") = true) ∧
    (clientWithWallet.executeQuery sampleEnv "DROP TABLE documents" sampleAddress).1.success
      = false ∧
    (clientWithWallet.executeQuery sampleEnv "DROP TABLE documents" sampleAddress).2.requests
      = [] := by
  have h := claim_C2 clientWithWallet sampleEnv "DROP TABLE documents" sampleAddress "DROP"
    (by decide) (by decide)
  exact ⟨⟨by decide, by decide⟩, h.1, h.2.2.1⟩

/-- C3: a query in which denylisted keywords occur only inside larger
identifiers (never as standalone words) passes `validateQuery`. -/
theorem claim_C3 (query : String)
    (_hsub : ∃ op ∈ FORBIDDEN_OPERATIONS, containsSubstring op (normalizeQuery query) = true)
    (hword : ∀ op ∈ FORBIDDEN_OPERATIONS, containsWholeWord op (normalizeQuery query) = false) :
    validateQuery query = none := by
  rw [validateQuery, List.find?_eq_none]
  intro x hx
  simp [hword x hx]

/-- C3 witness: `SELECT updated_at FROM documents` contains `UPDATE` only
as a substring of `updated_at` and passes validation. -/
theorem claim_C3_witness :
    (∃ op ∈ FORBIDDEN_OPERATIONS,
      containsSubstring op (normalizeQuery "SELECT updated_at FROM documents") = true) ∧
    validateQuery "SELECT updated_at FROM documents" = none := by
  exact ⟨⟨"UPDATE", by decide, by decide⟩,
    claim_C3 _ ⟨"UPDATE", by decide, by decide⟩ (by decide)⟩

/-- Each byte renders as exactly two hex characters. -/
theorem byteToHex_length (b : Nat) : (byteToHex b).length = 2 := rfl

/-- The hex rendering of the nonce bytes has two characters per byte. -/
theorem bytesToHex_length (bytes : List Nat) :
    (bytesToHex bytes).length = 2 * bytes.length := by
  induction bytes with
  | nil => rfl
  | cons b rest ih =>
    simp only [bytesToHex, String.length_append, byteToHex_length, ih, List.length_cons]
    omega

/-- Every byte below 256 renders to hex digits. -/
theorem byteToHex_hexDigits : ∀ b < 256, (byteToHex b).data.all isHexDigitChar = true := by
  decide

/-- The rendered nonce consists of hex digits when all bytes are bytes. -/
theorem bytesToHex_hexDigits (bytes : List Nat) (h : ∀ b ∈ bytes, b < 256) :
    ∀ c ∈ (bytesToHex bytes).data, isHexDigitChar c = true := by
  induction bytes with
  | nil => intro c hc; simp [bytesToHex] at hc
  | cons b rest ih =>
    intro c hc
    rw [bytesToHex, String.data_append] at hc
    rcases List.mem_append.mp hc with h1 | h2
    · exact List.all_eq_true.mp (byteToHex_hexDigits b (h b (by simp))) c h1
    · exact ih (fun x hx => h x (by simp [hx])) c h2

/-- C4: with a signing key configured, the signed header carries an
authorization with `from` the caller address, `to` the requirement payee,
`value` the requirement amount string unchanged, `validAfter = 0`,
`validBefore = now + maxTimeoutSeconds`, a nonce that is `0x` plus the 64
hex characters of the 32 freshly drawn random bytes, and a signature taken
under the constant `EIP3009_DOMAIN` (USD Coin, version 2, chain 8453, the
USDC contract), independent of the requirement. -/
theorem claim_C4 (wallet : Wallet) (env : Env) (requirement : PaymentRequirement)
    (agentWallet : String) (xp : XPaymentHeader)
    (hxp : xp = signAuthorization wallet env requirement agentWallet)
    (h32 : env.nonceBytes.length = 32)
    (hbytes : ∀ b ∈ env.nonceBytes, b < 256) :
    xp.payload.authorization.«from» = agentWallet ∧
    xp.payload.authorization.«to» = requirement.payTo ∧
    xp.payload.authorization.value = requirement.maxAmountRequired ∧
    xp.payload.authorization.validAfter = "0" ∧
    xp.payload.authorization.validBefore = Nat.repr (env.now + requirement.maxTimeoutSeconds) ∧
    xp.payload.authorization.nonce = "0x" ++ bytesToHex env.nonceBytes ∧
    xp.payload.authorization.nonce.length = 66 ∧
    (∀ c ∈ (bytesToHex env.nonceBytes).data, isHexDigitChar c = true) ∧
    xp.payload.signature
      = env.sign wallet.privateKey EIP3009_DOMAIN EIP3009_TYPES xp.payload.authorization ∧
    EIP3009_DOMAIN = { name := "USD Coin"
                       version := "2"
                       chainId := 8453
                       verifyingContract := "0x833589fCD6eDb6E08f4c7C32D4f71b54bdA02913" } ∧
    xp.x402Version = 1 ∧ xp.scheme = requirement.scheme ∧ xp.network = requirement.network := by
  subst hxp
  refine ⟨rfl, rfl, rfl, rfl, rfl, rfl, ?_, bytesToHex_hexDigits _ hbytes,
    rfl, rfl, rfl, rfl, rfl⟩
  show ("0x" ++ bytesToHex env.nonceBytes).length = 66
  rw [String.length_append, bytesToHex_length, h32]
  decide

/-- C4 witness: the signer evaluated at the concrete fixtures. -/
theorem claim_C4_witness :
    sampleEnv.nonceBytes.length = 32 ∧
    (signAuthorization sampleWallet sampleEnv sampleRequirement
      sampleAddress).payload.authorization.«from» = sampleAddress ∧
    (signAuthorization sampleWallet sampleEnv sampleRequirement
      sampleAddress).payload.authorization.nonce.length = 66 := by
  have h := claim_C4 sampleWallet sampleEnv sampleRequirement sampleAddress _ rfl
    (by decide) (by decide)
  exact ⟨by decide, h.1, h.2.2.2.2.2.2.1⟩

/-- A concrete instance of the ethers `Wallet` constructor behaviour: the
library accepts a private key that is `0x` followed by 64 hex characters
(a 32-byte hex quantity) and throws on anything else. -/
def ethersMakeWallet (key : String) : Except String Wallet :=
  match key.data with
  | c1 :: c2 :: rest =>
    if c1 = '0' && c2 = 'x' && (rest.length = 64 && rest.all isHexDigitChar) then
      .ok { privateKey := key }
    else .error "invalid private key"
  | _ => .error "invalid private key"

/-- A private key the wallet constructor accepts. -/
def sampleKey : String :=
  "0x1111111111111111111111111111111111111111111111111111111111111111"

/-- C10 (amended): with a missing (empty) `gatewayUrl`, `providerId` or
`apiKey`, construction fails with an error naming the first missing
field and no client is produced; with all three non-empty, construction
succeeds with no wallet when no (or an empty) signing key is supplied,
succeeds with a wallet when the wallet constructor accepts the supplied
key, and fails with the wallet constructor error (no client produced)
when it rejects the key. -/
theorem claim_C10 (makeWallet : String → Except String Wallet) (config : X402Config) :
    (config.gatewayUrl = "" →
      X402Client.make makeWallet config = .error "gatewayUrl is required") ∧
    (config.gatewayUrl ≠ "" → config.providerId = "" →
      X402Client.make makeWallet config = .error "providerId is required") ∧
    (config.gatewayUrl ≠ "" → config.providerId ≠ "" → config.apiKey = "" →
      X402Client.make makeWallet config = .error "apiKey is required") ∧
    (config.gatewayUrl ≠ "" → config.providerId ≠ "" → config.apiKey ≠ "" →
      ((config.agentPrivateKey = none ∨ config.agentPrivateKey = some "" →
        X402Client.make makeWallet config = .ok
          { gatewayUrl := config.gatewayUrl
            providerId := config.providerId
            apiKey := config.apiKey
            wallet := none }) ∧
      (∀ key w, config.agentPrivateKey = some key → ¬ (key = "") →
        makeWallet key = .ok w →
        X402Client.make makeWallet config = .ok
          { gatewayUrl := config.gatewayUrl
            providerId := config.providerId
            apiKey := config.apiKey
            wallet := some w }) ∧
      (∀ key e, config.agentPrivateKey = some key → ¬ (key = "") →
        makeWallet key = .error e →
        X402Client.make makeWallet config = .error e))) := by
  refine ⟨?_, ?_, ?_, ?_⟩
  · intro h1
    simp [X402Client.make, h1]
  · intro h1 h2
    simp [X402Client.make, h1, h2]
  · intro h1 h2 h3
    simp [X402Client.make, h1, h2, h3]
  · intro h1 h2 h3
    refine ⟨?_, ?_, ?_⟩
    · rintro (hk | hk) <;> simp [X402Client.make, h1, h2, h3, hk]
    · intro key w hk hne hmk
      simp [X402Client.make, h1, h2, h3, hk, hne, hmk]
    · intro key e hk hne hmk
      simp [X402Client.make, h1, h2, h3, hk, hne, hmk]

/-- C10 counterexample: a configuration with all three required fields
non-empty but a signing key the ethers `Wallet` constructor rejects does
not construct a client — the library throw propagates — refuting the
unconditional "construction succeeds for every non-empty three-field
configuration, with or without a signing key". -/
theorem claim_C10_counterexample :
    X402Client.make ethersMakeWallet
        { gatewayUrl := "https://gw.example"
          providerId := "prov-1"
          apiKey := "key-1"
          agentPrivateKey := some "not-a-private-key" }
      = .error "invalid private key" := by
  rfl

/-- C10 witness: an empty `gatewayUrl` is rejected by name; a complete
configuration with no key yields a wallet-less client; one with an
accepted key yields a client holding the wallet. -/
theorem claim_C10_witness :
    X402Client.make ethersMakeWallet
        { gatewayUrl := "", providerId := "prov-1", apiKey := "key-1", agentPrivateKey := none }
      = .error "gatewayUrl is required" ∧
    X402Client.make ethersMakeWallet
        { gatewayUrl := "https://gw.example"
          providerId := "prov-1"
          apiKey := "key-1"
          agentPrivateKey := none }
      = .ok { gatewayUrl := "https://gw.example"
              providerId := "prov-1"
              apiKey := "key-1"
              wallet := none } ∧
    X402Client.make ethersMakeWallet
        { gatewayUrl := "https://gw.example"
          providerId := "prov-1"
          apiKey := "key-1"
          agentPrivateKey := some sampleKey }
      = .ok { gatewayUrl := "https://gw.example"
              providerId := "prov-1"
              apiKey := "key-1"
              wallet := some { privateKey := sampleKey } } := by
  refine ⟨(claim_C10 ethersMakeWallet _).1 rfl, ?_, ?_⟩
  · exact ((claim_C10 ethersMakeWallet
      { gatewayUrl := "https://gw.example"
        providerId := "prov-1"
        apiKey := "key-1"
        agentPrivateKey := none }).2.2.2 (by decide) (by decide) (by decide)).1 (Or.inl rfl)
  · exact ((claim_C10 ethersMakeWallet
      { gatewayUrl := "https://gw.example"
        providerId := "prov-1"
        apiKey := "key-1"
        agentPrivateKey := some sampleKey }).2.2.2 (by decide) (by decide)
          (by decide)).2.1 sampleKey { privateKey := sampleKey } rfl (by decide) (by rfl)

/-- The payment-required side of the spec invariant: flag set together
with the requirements list. -/
def paymentRequiredPopulated (r : QueryResult) : Prop :=
  r.paymentRequired = some true ∧ r.paymentRequirements ≠ none

/-- The error side of the spec invariant. -/
def errorPopulated (r : QueryResult) : Prop :=
  r.error ≠ none

/-- Exactly one of the two failure payloads is populated. -/
def failureExactlyOne (r : QueryResult) : Prop :=
  (paymentRequiredPopulated r ∧ ¬ errorPopulated r) ∨
  (¬ paymentRequiredPopulated r ∧ errorPopulated r)

/-- The `QueryResult` invariant exactly as the spec states it. -/
def queryResultInvariant (r : QueryResult) : Prop :=
  (r.success = true ∧ r.rows ≠ none) ∨ (r.success = false ∧ failureExactlyOne r)

/-- Every error result satisfies the failure side of the invariant. -/
theorem failureExactlyOne_errorResult (m : String) :
    (errorResult m).success = false ∧ failureExactlyOne (errorResult m) := by
  refine ⟨rfl, Or.inr ⟨?_, ?_⟩⟩
  · intro h
    rcases h with ⟨h1, _⟩
    simp [errorResult, emptyResult] at h1
  · simp [errorPopulated, errorResult, emptyResult]

/-- C1 (amended): every `executeQuery` outcome is either `success = true`
with none of the failure fields populated, or `success = false` with
exactly one of {paymentRequired together with paymentRequirements, error}
populated; on success the rows field is whatever rows the gateway body
carried, so it may be absent. -/
theorem claim_C1 (client : X402Client) (env : Env) (query agentWallet : String) :
    ((client.executeQuery env query agentWallet).1.success = true ∧
      (client.executeQuery env query agentWallet).1.paymentRequired = none ∧
      (client.executeQuery env query agentWallet).1.paymentRequirements = none ∧
      (client.executeQuery env query agentWallet).1.error = none) ∨
    ((client.executeQuery env query agentWallet).1.success = false ∧
      failureExactlyOne (client.executeQuery env query agentWallet).1) := by
  simp only [X402Client.executeQuery]
  repeat' split
  all_goals
    simp_all [failureExactlyOne, paymentRequiredPopulated, errorPopulated,
      errorResult, emptyResult]

/-- The 200 body used by the C1 counterexample: valid JSON with no
`rows` field. -/
def cexBody : SuccessBody :=
  { rows := none, rowCount := some 0, estimatedCost := none, actualCost := none,
    executionTime := none, paymentSource := none }

/-- A 200 response whose body omits `rows`. -/
def cexResponse : HttpResponse :=
  { status := 200, statusText := "OK", challengeBody := .error "not a challenge",
    successBody := .ok cexBody, errorBody := .ok none, xPaymentResponse := none }

/-- Environment answering the first attempt with that 200 response. -/
def cexEnv : Env := { sampleEnv with first := .response cexResponse }

/-- C1 counterexample: when the gateway answers 200 with a JSON body that
has no `rows` field, `executeQuery` returns `success = true` with `rows`
absent, so the invariant as stated (rows present on success) fails. -/
theorem claim_C1_counterexample :
    ¬ queryResultInvariant
      (clientNoWallet.executeQuery cexEnv "SELECT 1" sampleAddress).1 := by
  intro h
  rcases h with ⟨_, hrows⟩ | ⟨hfalse, _⟩
  · exact hrows (by rfl)
  · have hsucc : (clientNoWallet.executeQuery cexEnv "SELECT 1" sampleAddress).1.success
        = true := by rfl
    rw [hfalse] at hsucc
    exact Bool.noConfusion hsucc

/-- A 402 response carrying the sample challenge. -/
def resp402 : HttpResponse :=
  { status := 402, statusText := "Payment Required", challengeBody := .ok sampleChallenge,
    successBody := .error "challenge body", errorBody := .ok (some "Payment required"),
    xPaymentResponse := none }

/-- Environment answering the first attempt with the 402 challenge. -/
def env402 : Env := { sampleEnv with first := .response resp402 }

/-- A challenge with an empty accepts list, and its response/environment. -/
def emptyChallenge : PaymentRequirementsResponse :=
  { x402Version := 1, error := "Payment required", accepts := [] }

/-- A 402 response whose accepts list is empty. -/
def resp402empty : HttpResponse := { resp402 with challengeBody := .ok emptyChallenge }

/-- Environment answering the first attempt with the empty challenge. -/
def env402empty : Env := { sampleEnv with first := .response resp402empty }

/-- C5: on a 402 challenge with a signing key configured, an empty
`accepts` list yields `success = false` with the error naming the missing
payment requirement and nothing signed; otherwise exactly the first
element `accepts[0]` is the requirement signed (one signature, no other
selection). -/
theorem claim_C5 (client : X402Client) (wallet : Wallet) (env : Env)
    (query agentWallet : String) (r : HttpResponse) (pr : PaymentRequirementsResponse)
    (hval : validateQuery query = none)
    (hw : client.wallet = some wallet)
    (hf : env.first = .response r)
    (hs : r.status = 402)
    (hb : r.challengeBody = .ok pr) :
    (pr.accepts = [] →
      (client.executeQuery env query agentWallet).1.success = false ∧
      (client.executeQuery env query agentWallet).1.error =
        some "No payment requirement returned from gateway" ∧
      (client.executeQuery env query agentWallet).2.signed = []) ∧
    (∀ requirement rest, pr.accepts = requirement :: rest →
      (client.executeQuery env query agentWallet).2.signed =
        [signAuthorization wallet env requirement agentWallet]) := by
  constructor
  · intro hacc
    refine ⟨?_, ?_, ?_⟩ <;>
      simp [X402Client.executeQuery, hval, hf, hs, hb, hw, hacc, errorResult, emptyResult]
  · intro requirement rest hacc
    rcases h2 : env.second with m | r2
    · simp [X402Client.executeQuery, hval, hf, hs, hb, hw, hacc, h2]
    · by_cases hok : r2.isOk = true
      · rcases hsb : r2.successBody with msg | data
        · simp [X402Client.executeQuery, hval, hf, hs, hb, hw, hacc, h2, hok, hsb]
        · simp [X402Client.executeQuery, hval, hf, hs, hb, hw, hacc, h2, hok, hsb]
      · have hok2 : r2.isOk = false := by simpa using hok
        simp [X402Client.executeQuery, hval, hf, hs, hb, hw, hacc, h2, hok2]

/-- C5 witness: empty accepts yields the no-requirement error; the sample
challenge makes the client sign exactly `accepts[0]`. -/
theorem claim_C5_witness :
    (clientWithWallet.executeQuery env402empty "SELECT 1" sampleAddress).1.error =
      some "No payment requirement returned from gateway" ∧
    (clientWithWallet.executeQuery env402 "SELECT 1" sampleAddress).2.signed =
      [signAuthorization sampleWallet env402 sampleRequirement sampleAddress] := by
  constructor
  · exact ((claim_C5 clientWithWallet sampleWallet env402empty "SELECT 1" sampleAddress
      resp402empty emptyChallenge (by decide) rfl rfl rfl rfl).1 rfl).2.1
  · exact (claim_C5 clientWithWallet sampleWallet env402 "SELECT 1" sampleAddress
      resp402 sampleChallenge (by decide) rfl rfl rfl rfl).2 sampleRequirement [] rfl

/-- C6: on a 402 challenge with no signing key configured, `executeQuery`
returns `success = false`, `paymentRequired = true`, the full parsed
requirements, the manual-payment message, no error field, and signs
nothing after its single request. -/
theorem claim_C6 (client : X402Client) (env : Env) (query agentWallet : String)
    (r : HttpResponse) (pr : PaymentRequirementsResponse)
    (hval : validateQuery query = none)
    (hw : client.wallet = none)
    (hf : env.first = .response r)
    (hs : r.status = 402)
    (hb : r.challengeBody = .ok pr) :
    (client.executeQuery env query agentWallet).1 =
      { emptyResult with
          paymentRequired := some true
          paymentRequirements := some pr
          message := some "Payment required. Configure AGENT_PRIVATE_KEY to enable automatic payments, or sign manually." } ∧
    (client.executeQuery env query agentWallet).2 =
      { requests := [{ sql := query
                       agentWallet := agentWallet
                       providerId := client.providerId
                       payment := none }]
        signed := [] } := by
  constructor <;> simp [X402Client.executeQuery, hval, hf, hs, hb, hw]

/-- C6 witness: the no-wallet client surfaces the sample challenge. -/
theorem claim_C6_witness :
    (clientNoWallet.executeQuery env402 "SELECT 1" sampleAddress).1.paymentRequired
      = some true ∧
    (clientNoWallet.executeQuery env402 "SELECT 1" sampleAddress).1.paymentRequirements
      = some sampleChallenge ∧
    (clientNoWallet.executeQuery env402 "SELECT 1" sampleAddress).1.error = none ∧
    (clientNoWallet.executeQuery env402 "SELECT 1" sampleAddress).2.signed = [] := by
  have h := claim_C6 clientNoWallet env402 "SELECT 1" sampleAddress resp402 sampleChallenge
    (by decide) rfl rfl rfl rfl
  refine ⟨?_, ?_, ?_, ?_⟩ <;> simp [h.1, h.2, emptyResult]

/-- C7: when the first attempt gets a 2xx answer, exactly one transport
call is made and nothing is signed; and whenever the body parses, the
result is `success = true` carrying exactly the fields of the response
body (rows, row count, costs, execution time, payment source). -/
theorem claim_C7 (client : X402Client) (env : Env) (query agentWallet : String)
    (r : HttpResponse)
    (hval : validateQuery query = none)
    (hf : env.first = .response r)
    (hok : r.isOk = true) :
    (client.executeQuery env query agentWallet).2.requests.length = 1 ∧
    (client.executeQuery env query agentWallet).2.signed = [] ∧
    (∀ data, r.successBody = .ok data →
      (client.executeQuery env query agentWallet).1 =
        { emptyResult with
            success := true
            rows := data.rows
            rowCount := data.rowCount
            estimatedCost := data.estimatedCost
            actualCost := data.actualCost
            executionTime := data.executionTime
            paymentSource := data.paymentSource }) := by
  have hrange := hok
  simp only [HttpResponse.isOk, decide_eq_true_eq] at hrange
  have h402 : ¬ (r.status = 402) := by omega
  refine ⟨?_, ?_, ?_⟩
  · rcases hsb : r.successBody with m | data <;>
      simp [X402Client.executeQuery, hval, hf, h402, hok, hsb]
  · rcases hsb : r.successBody with m | data <;>
      simp [X402Client.executeQuery, hval, hf, h402, hok, hsb]
  · intro data hdata
    simp [X402Client.executeQuery, hval, hf, h402, hok, hdata]

/-- A well-formed 200 body and response for the C7 witness. -/
def okBody : SuccessBody :=
  { rows := some [[("id", "1")]], rowCount := some 1, estimatedCost := some "0.000050",
    actualCost := some "0.000050", executionTime := some 42,
    paymentSource := some PaymentSource.payment }

/-- A 200 response carrying `okBody`. -/
def respOk : HttpResponse :=
  { status := 200, statusText := "OK", challengeBody := .error "not a challenge",
    successBody := .ok okBody, errorBody := .ok none, xPaymentResponse := none }

/-- Environment answering the first attempt with `respOk`. -/
def envOk : Env := { sampleEnv with first := .response respOk }

/-- C7 witness: a first-attempt 200 makes one request, signs nothing, and
returns the body rows. -/
theorem claim_C7_witness :
    (clientWithWallet.executeQuery envOk "SELECT 1" sampleAddress).2.requests.length = 1 ∧
    (clientWithWallet.executeQuery envOk "SELECT 1" sampleAddress).2.signed = [] ∧
    (clientWithWallet.executeQuery envOk "SELECT 1" sampleAddress).1.success = true ∧
    (clientWithWallet.executeQuery envOk "SELECT 1" sampleAddress).1.rows = okBody.rows := by
  have h := claim_C7 clientWithWallet envOk "SELECT 1" sampleAddress respOk
    (by decide) rfl rfl
  have h3 := h.2.2 okBody rfl
  exact ⟨h.1, h.2.1, by rw [h3], by rw [h3]⟩

/-- C8: when the retry attempt (second request, carrying the payment
header) receives any non-2xx status, the call returns `success = false`
with the error embedding the status and the gateway error payload
verbatim (falling back to the status text only when the payload has no
non-empty error string), and no payment-required fields. -/
theorem claim_C8 (client : X402Client) (wallet : Wallet) (env : Env)
    (query agentWallet : String) (r : HttpResponse) (pr : PaymentRequirementsResponse)
    (requirement : PaymentRequirement) (rest : List PaymentRequirement) (r2 : HttpResponse)
    (hval : validateQuery query = none)
    (hw : client.wallet = some wallet)
    (hf : env.first = .response r)
    (hs : r.status = 402)
    (hb : r.challengeBody = .ok pr)
    (hacc : pr.accepts = requirement :: rest)
    (h2 : env.second = .response r2)
    (hok : r2.isOk = false) :
    (client.executeQuery env query agentWallet).1.success = false ∧
    (client.executeQuery env query agentWallet).1.error =
      some ("Payment failed (" ++ Nat.repr r2.status ++ "): " ++ r2.fallbackError) ∧
    (client.executeQuery env query agentWallet).1.paymentRequired = none ∧
    (∀ e, r2.errorBody = .ok (some e) → ¬ (e = "") → r2.fallbackError = e) := by
  refine ⟨?_, ?_, ?_, ?_⟩
  · simp [X402Client.executeQuery, hval, hf, hs, hb, hw, hacc, h2, hok,
      errorResult, emptyResult]
  · simp [X402Client.executeQuery, hval, hf, hs, hb, hw, hacc, h2, hok,
      errorResult, emptyResult]
  · simp [X402Client.executeQuery, hval, hf, hs, hb, hw, hacc, h2, hok,
      errorResult, emptyResult]
  · intro e he hne
    simp [HttpResponse.fallbackError, he, hne]

/-- Environment answering 402 on both attempts (gateway rejects the
signed authorization). -/
def envRetry402 : Env :=
  { sampleEnv with first := .response resp402, second := .response resp402 }

/-- C8 witness: 402 twice in a row surfaces the gateway error payload. -/
theorem claim_C8_witness :
    (clientWithWallet.executeQuery envRetry402 "SELECT 1" sampleAddress).1.success = false ∧
    (clientWithWallet.executeQuery envRetry402 "SELECT 1" sampleAddress).1.error =
      some "Payment failed (402): Payment required" := by
  have h := claim_C8 clientWithWallet sampleWallet envRetry402 "SELECT 1" sampleAddress
    resp402 sampleChallenge sampleRequirement [] resp402
    (by decide) rfl rfl rfl rfl rfl rfl (by decide)
  exact ⟨h.1, h.2.1⟩

/-- The shape the spec prescribes for caller addresses: `0x` followed by
40 hexadecimal characters. -/
def ethAddressShape (address : String) : Prop :=
  ∃ rest : List Char, address.data = '0' :: 'x' :: rest ∧ rest.length = 40 ∧
    ∀ c ∈ rest, isHexDigitChar c = true

/-- `validateWalletAddress` accepts exactly the addresses of the
spec shape. -/
theorem validateWalletAddress_iff (a : String) :
    validateWalletAddress a = true ↔ ethAddressShape a := by
  unfold validateWalletAddress ethAddressShape
  rcases ha : a.data with _ | ⟨c1, tl⟩
  · simp [ha]
  · rcases tl with _ | ⟨c2, rest⟩
    · simp [ha]
    · constructor
      · intro h
        replace h : (decide (c1 = '0') && decide (c2 = 'x')
            && (decide (rest.length = 40) && rest.all isHexDigitChar)) = true := h
        simp only [Bool.and_eq_true, decide_eq_true_eq, List.all_eq_true] at h
        obtain ⟨⟨h1, h2⟩, h3, h4⟩ := h
        subst h1; subst h2
        exact ⟨rest, rfl, h3, h4⟩
      · rintro ⟨rest2, hr, h3, h4⟩
        obtain ⟨h1, h2, h5⟩ : c1 = '0' ∧ c2 = 'x' ∧ rest = rest2 := by
          simpa using hr
        subst h1; subst h2; subst h5
        show (decide ('0' = '0') && decide ('x' = 'x')
          && (decide (rest.length = 40) && rest.all isHexDigitChar)) = true
        have hall : rest.all isHexDigitChar = true := List.all_eq_true.mpr h4
        simp [h3, hall]

/-- Concrete float helpers for the witnesses (display formatting only). -/
def sampleOps : FloatOps :=
  { fmtMoney := fun s => s, isPositive := fun _ => false }

/-- C9: the handler validates the caller address against exactly
`0x` + 40 hex characters, and any input whose address fails that check
produces a failure result with an error and zero transport calls and
zero signatures. -/
theorem claim_C9 (client : X402Client) (env : Env) (ops : FloatOps)
    (input : ExecuteQueryInput) :
    (validateWalletAddress input.walletAddress = true ↔
      ethAddressShape input.walletAddress) ∧
    (validateWalletAddress input.walletAddress = false →
      (createExecuteQueryHandler client env ops input).1.success = false ∧
      (createExecuteQueryHandler client env ops input).1.error ≠ none ∧
      (createExecuteQueryHandler client env ops input).2.requests = [] ∧
      (createExecuteQueryHandler client env ops input).2.signed = []) := by
  refine ⟨validateWalletAddress_iff _, ?_⟩
  intro hv
  by_cases hq : trimChars input.query.data = []
  · refine ⟨?_, ?_, ?_, ?_⟩ <;>
      simp [createExecuteQueryHandler, hq, emptyExecuteResult]
  · by_cases hwa : trimChars input.walletAddress.data = []
    · refine ⟨?_, ?_, ?_, ?_⟩ <;>
        simp [createExecuteQueryHandler, hq, hwa, emptyExecuteResult]
    · refine ⟨?_, ?_, ?_, ?_⟩ <;>
        simp [createExecuteQueryHandler, hq, hwa, hv, emptyExecuteResult]

/-- C9 witness: a malformed address is rejected with no transport call. -/
theorem claim_C9_witness :
    validateWalletAddress "0xabc" = false ∧
    (createExecuteQueryHandler clientWithWallet sampleEnv sampleOps
      { query := "SELECT 1", walletAddress := "0xabc" }).1.success = false ∧
    (createExecuteQueryHandler clientWithWallet sampleEnv sampleOps
      { query := "SELECT 1", walletAddress := "0xabc" }).2.requests = [] := by
  have h := (claim_C9 clientWithWallet sampleEnv sampleOps
    { query := "SELECT 1", walletAddress := "0xabc" }).2 (by decide)
  exact ⟨by decide, h.1, h.2.2.1⟩
